import Mathlib

/-!
Shallow embedding of the shipping-box calculator's logical core
(rate table, pricing, validation, color codec, record store reducer).
JavaScript numbers are modelled as exact rationals; absent/null values
as `Option`; thrown exceptions as `Except`.
-/

deriving instance DecidableEq for Except

namespace ShippingBox

/-! ## Basic helpers for JS-style parsing -/

/-- The decimal digits of a character list: longest digit prefix and the rest. -/
def takeDigits (l : List Char) : List Char × List Char :=
  (l.takeWhile Char.isDigit, l.dropWhile Char.isDigit)

/-- Value of a list of decimal digit characters. -/
def digitsToNat (l : List Char) : ℕ :=
  l.foldl (fun a c => a * 10 + (c.toNat - 48)) 0

/-- ASCII upper-casing, as `String.prototype.toUpperCase` on ASCII input. -/
def jsToUpper (s : String) : String :=
  ⟨s.data.map Char.toUpper⟩

/-- JS whitespace characters relevant to the regex class `\s` here. -/
def isSpaceChar (c : Char) : Bool :=
  c = ' ' || c = '\t' || c = '\n' || c = '\r'

/-- `Number.prototype.toFixed(2)` followed by `parseFloat`, on exact
rationals: rounding to 2 decimal places, halves away from zero upward. -/
def round2 (q : ℚ) : ℚ :=
  (⌊q * 100 + 1 / 2⌋ : ℚ) / 100

/-- The optional exponent part of a parsed JS number literal: an optional
sign followed by digits; an exponent with no digits contributes nothing. -/
def expPart (t : List Char) : ℤ :=
  match t with
  | '-' :: u => if (takeDigits u).1 = [] then 0 else -(digitsToNat (takeDigits u).1 : ℤ)
  | '+' :: u => if (takeDigits u).1 = [] then 0 else (digitsToNat (takeDigits u).1 : ℤ)
  | _ => if (takeDigits t).1 = [] then 0 else (digitsToNat (takeDigits t).1 : ℤ)

/-- JS `parseFloat`, in exact decimal representation: skips leading
whitespace, parses an optional sign, digits with an optional fractional
part and an optional exponent, ignoring any trailing garbage; `none`
models `NaN` (no digits found). `some (z, k)` denotes the value
`z / 10 ^ k`. -/
def jsParseFloatRep (s : String) : Option (ℤ × ℕ) :=
  let l0 := s.data.dropWhile isSpaceChar
  let sl : ℤ × List Char :=
    match l0 with
    | '-' :: t => (-1, t)
    | '+' :: t => (1, t)
    | _ => (1, l0)
  let ip := takeDigits sl.2
  let fp : List Char × List Char :=
    match ip.2 with
    | '.' :: t => takeDigits t
    | _ => ([], ip.2)
  if ip.1 = [] ∧ fp.1 = [] then none
  else
    let k0 : ℕ := fp.1.length
    let z0 : ℤ := sl.1 * ((digitsToNat ip.1 : ℤ) * 10 ^ k0 + (digitsToNat fp.1 : ℤ))
    let e : ℤ :=
      match fp.2 with
      | 'e' :: t => expPart t
      | 'E' :: t => expPart t
      | _ => 0
    let d : ℤ := e - k0
    if 0 ≤ d then some (z0 * 10 ^ d.toNat, 0) else some (z0, (-d).toNat)

/-- The rational value of JS `parseFloat`; `none` models `NaN`. -/
def jsParseFloat (s : String) : Option ℚ :=
  (jsParseFloatRep s).map (fun p => (p.1 : ℚ) / 10 ^ p.2)

/-! ## Rate table and pricing (src/constants, src/utils `calculateShippingCost`) -/

/-- The fixed per-kilogram rate table `SHIPPING_RATES` from `src/constants`. -/
def SHIPPING_RATES (key : String) : Option ℚ :=
  if key = "SWEDEN" then some (735 / 100)
  else if key = "CHINA" then some (1153 / 100)
  else if key = "BRAZIL" then some (1563 / 100)
  else if key = "AUSTRALIA" then some (5009 / 100)
  else none

/-- `calculateShippingCost(weight, country)` from `src/utils/index.js`.
`weight = none` models an absent/NaN weight, `country = none` an absent
country; the thrown unknown-country exception is an `Except.error`. -/
def calculateShippingCost (weight : Option ℚ) (country : Option String) : Except String ℚ :=
  match weight, country with
  | none, _ => Except.ok 0
  | some _, none => Except.ok 0
  | some w, some c =>
    if w = 0 ∨ c = "" ∨ w ≤ 0 then Except.ok 0
    else
      match SHIPPING_RATES (jsToUpper c) with
      | none => Except.error ("Shipping rate not found for country: " ++ c)
      | some rate => Except.ok (round2 (w * rate))

/-! ## Form validation (src/utils `validateBoxForm`) -/

/-- The form data handed to `validateBoxForm`: all three fields are strings,
exactly as the form state in `useBoxForm` holds them (`""` for untouched). -/
structure BoxForm where
  receiverName : String
  weight : String
  country : String
deriving Repr, DecidableEq

/-- The field-level error map built by `validateBoxForm`; `none` means the
key is absent from the `errors` object. -/
structure ValidationErrors where
  receiverName : Option String
  weight : Option String
  country : Option String
deriving Repr, DecidableEq

/-- The `{isValid, errors}` result of `validateBoxForm`. -/
structure ValidationResult where
  isValid : Bool
  errors : ValidationErrors
deriving Repr, DecidableEq

/-- The weight branch of `validateBoxForm` from `src/utils/index.js`.
The parsed value `z / 10 ^ k` is compared via the equivalent integer
comparisons so the function evaluates by kernel reduction; the lemmas on
`validateBoxForm` below re-state the branches in terms of the rational
value of `jsParseFloat`. -/
def validateWeight (weight : String) : Option String :=
  if weight = "" then
    some "Weight is required. Please enter the package weight in kilograms."
  else
    match jsParseFloatRep weight with
    | none => some "Please enter a valid numeric weight value."
    | some p =>
      if p.1 < 0 then some "Negative values are not permitted for weight."
      else if p.1 = 0 then some "Weight must be greater than 0 kg."
      else if 10000 * 10 ^ p.2 < p.1 then
        some "Weight cannot exceed 10,000 kg. Please check the weight."
      else none

/-- JS `String.prototype.trim`: strip whitespace from both ends. -/
def jsTrim (s : String) : String :=
  ⟨((s.data.dropWhile isSpaceChar).reverse.dropWhile isSpaceChar).reverse⟩

/-- `validateBoxForm(formData)` from `src/utils/index.js`. -/
def validateBoxForm (f : BoxForm) : ValidationResult :=
  let nameErr : Option String :=
    if jsTrim f.receiverName = "" then
      some "Receiver name is required. Please enter the recipient's name."
    else if (jsTrim f.receiverName).length > 100 then
      some "Receiver name cannot exceed 100 characters."
    else none
  let weightErr : Option String := validateWeight f.weight
  let countryErr : Option String :=
    if f.country = "" then
      some "Destination country is required. Please select a shipping destination."
    else none
  let errs : ValidationErrors := ⟨nameErr, weightErr, countryErr⟩
  ⟨nameErr.isNone && weightErr.isNone && countryErr.isNone, errs⟩

/-! ## Color codec (src/utils `hexToRgb`, `rgbToColor`) -/

/-- Case-insensitive hexadecimal digit, the regex class `[a-f\d]` under `/i`. -/
def isHexDigit (c : Char) : Bool :=
  c.isDigit || ('a' ≤ c && c ≤ 'f') || ('A' ≤ c && c ≤ 'F')

/-- Value of a single hexadecimal digit character. -/
def hexVal (c : Char) : ℕ :=
  if c.isDigit then c.toNat - 48
  else if 'a' ≤ c && c ≤ 'f' then c.toNat - 87
  else c.toNat - 55

/-- The six-hex-digit body of the `hexToRgb` regex: exactly six characters
of the class `[a-f\d]` (case-insensitive), captured pairwise. -/
def hexSix (m : List Char) : Option (Char × Char × Char × Char × Char × Char) :=
  match m with
  | [a, b, c, d, e, f] =>
    if isHexDigit a && isHexDigit b && isHexDigit c
        && isHexDigit d && isHexDigit e && isHexDigit f then
      some (a, b, c, d, e, f)
    else none
  | _ => none

/-- The anchored regex `/^#?([a-f\d]{2})([a-f\d]{2})([a-f\d]{2})$/i` of
`hexToRgb`: an optional leading `#` followed by exactly six hex digits. -/
def hexMatch (l : List Char) : Option (Char × Char × Char × Char × Char × Char) :=
  hexSix (if l.head? = some '#' then l.tail else l)

/-- `hexToRgb(hex)` from `src/utils/index.js`; `none` models a non-string
argument. -/
def hexToRgb (hex : Option String) : String :=
  match hex with
  | none => "(0, 0, 0)"
  | some s =>
    if s = "" then "(0, 0, 0)"
    else
      match hexMatch s.data with
      | none => "(0, 0, 0)"
      | some (a, b, c, d, e, f) =>
        "(" ++ toString (16 * hexVal a + hexVal b)
          ++ ", " ++ toString (16 * hexVal c + hexVal d)
          ++ ", " ++ toString (16 * hexVal e + hexVal f) ++ ")"

/-- Spec-side description of the accepted inputs over character lists:
exactly six hex digits, or a leading `#` followed by six hex digits. -/
def hexShapeL (l : List Char) : Bool :=
  (l.length == 6 && l.all isHexDigit)
    || (if l.head? = some '#' then l.tail.length == 6 && l.tail.all isHexDigit else false)

/-- Spec-side description of the accepted hex strings. -/
def hexShape (s : String) : Bool := hexShapeL s.data

/-- One attempt of the unanchored regex `/\((\d+),\s*(\d+),\s*(\d+)\)/` of
`rgbToColor` at the current position: `(` then digits, `,`, optional
whitespace, digits, `,`, optional whitespace, digits, `)`. -/
def matchTripletAt (l : List Char) : Option (List Char × List Char × List Char) :=
  if l.head? = some '(' then
    let p1 := takeDigits l.tail
    if p1.1 = [] then none
    else if p1.2.head? = some ',' then
      let p2 := takeDigits (p1.2.tail.dropWhile isSpaceChar)
      if p2.1 = [] then none
      else if p2.2.head? = some ',' then
        let p3 := takeDigits (p2.2.tail.dropWhile isSpaceChar)
        if p3.1 = [] then none
        else if p3.2.head? = some ')' then some (p1.1, p2.1, p3.1)
        else none
      else none
    else none
  else none

/-- Leftmost match of the triplet regex, as `String.prototype.match` with a
non-global regex: try every start position from the left. -/
def findTriplet : List Char → Option (List Char × List Char × List Char)
  | [] => none
  | c :: t =>
    match matchTripletAt (c :: t) with
    | some r => some r
    | none => findTriplet t

/-- `rgbToColor(rgbString)` from `src/utils/index.js`; `none` models a
non-string argument. -/
def rgbToColor (rgbString : Option String) : String :=
  match rgbString with
  | none => "#000000"
  | some s =>
    if s = "" then "#000000"
    else
      match findTriplet s.data with
      | none => "#000000"
      | some (r, g, b) =>
        "rgb(" ++ String.mk r ++ ", " ++ String.mk g ++ ", " ++ String.mk b ++ ")"

/-! ## Record store (src/context/BoxContext.js) -/

/-- `UI_MESSAGES.ERRORS.GENERIC_ERROR` from `src/constants`. -/
def GENERIC_ERROR : String := "An unexpected error occurred"

/-- One box record as stored in the context state. Numeric fields are
`Option ℚ` so that loaded records with absent fields are representable. -/
structure Box where
  id : String
  receiverName : String
  boxColor : String
  weight : Option ℚ
  country : Option String
  shippingCost : Option ℚ
  createdAt : String
  updatedAt : String
deriving Repr, DecidableEq

/-- The derived `statistics` object. -/
structure Statistics where
  totalBoxes : ℕ
  totalWeight : ℚ
  totalCost : ℚ
deriving Repr, DecidableEq

/-- The reducer state `{boxes, loading, error, statistics}`. -/
structure BoxState where
  boxes : List Box
  loading : Bool
  error : Option String
  statistics : Statistics
deriving Repr, DecidableEq

/-- `createInitialState()` from `src/context/BoxContext.js`. -/
def createInitialState : BoxState :=
  { boxes := [], loading := false, error := none
    statistics := { totalBoxes := 0, totalWeight := 0, totalCost := 0 } }

/-- `calculateStatistics(boxes)` from `src/context/BoxContext.js`:
`box.weight || 0` and `box.shippingCost || 0` are `Option.getD _ 0`. -/
def calculateStatistics (boxes : List Box) : Statistics :=
  if boxes.isEmpty then { totalBoxes := 0, totalWeight := 0, totalCost := 0 }
  else
    boxes.foldl
      (fun stats box =>
        { totalBoxes := stats.totalBoxes + 1
          totalWeight := stats.totalWeight + box.weight.getD 0
          totalCost := stats.totalCost + box.shippingCost.getD 0 })
      { totalBoxes := 0, totalWeight := 0, totalCost := 0 }

/-- A partial-update object for `UPDATE_BOX`: `none` means the key is
absent from the `updates` object. -/
structure BoxUpdates where
  receiverName : Option String
  boxColor : Option String
  weight : Option ℚ
  country : Option String
  shippingCost : Option ℚ
  updatedAt : Option String
deriving Repr, DecidableEq

/-- An updates object with the recomputed shipping cost and refreshed
`updatedAt` merged in, as dispatched by the `updateBox` context action. -/
def withCost (u : BoxUpdates) (cost : ℚ) (now : String) : BoxUpdates :=
  { u with shippingCost := some cost, updatedAt := some now }

/-- The spread `{...box, ...updates}`: present keys overwrite. -/
def applyUpdates (b : Box) (u : BoxUpdates) : Box :=
  { id := b.id
    receiverName := u.receiverName.getD b.receiverName
    boxColor := u.boxColor.getD b.boxColor
    weight := match u.weight with | some w => some w | none => b.weight
    country := match u.country with | some c => some c | none => b.country
    shippingCost := match u.shippingCost with | some c => some c | none => b.shippingCost
    createdAt := b.createdAt
    updatedAt := u.updatedAt.getD b.updatedAt }

/-- The dispatched actions (`ActionTypes` in `src/context/BoxContext.js`);
`unknown` stands for any action type outside the enumeration. -/
inductive Action where
  | loadBoxes (payload : Option (List Box))
  | addBox (payload : Box)
  | removeBox (payload : String)
  | updateBox (id : String) (updates : BoxUpdates)
  | setLoading (payload : Bool)
  | setError (payload : String)
  | clearError
  | updateStatistics
  | unknown (typeName : String)
deriving Repr, DecidableEq

/-- The `switch` body of `boxReducer` (everything inside the `try`). -/
def boxReducerBody (state : BoxState) (action : Action) : BoxState :=
  match action with
  | .loadBoxes payload =>
    let boxes := payload.getD []
    { state with boxes := boxes, statistics := calculateStatistics boxes
                 loading := false, error := none }
  | .addBox payload =>
    let newBoxes := state.boxes ++ [payload]
    { state with boxes := newBoxes, statistics := calculateStatistics newBoxes
                 error := none, loading := false }
  | .removeBox payload =>
    let newBoxes := state.boxes.filter (fun box => box.id != payload)
    { state with boxes := newBoxes, statistics := calculateStatistics newBoxes
                 error := none }
  | .updateBox id updates =>
    let newBoxes := state.boxes.map (fun box =>
      if box.id = id then applyUpdates box updates else box)
    { state with boxes := newBoxes, statistics := calculateStatistics newBoxes
                 error := none }
  | .setLoading payload => { state with loading := payload }
  | .setError payload => { state with error := some payload, loading := false }
  | .clearError => { state with error := none }
  | .updateStatistics => { state with statistics := calculateStatistics state.boxes }
  | .unknown _ => state

/-- The `try`/`catch` boundary of `boxReducer`: a thrown transition is
converted into `error = GENERIC_ERROR` on the previous state. -/
def reducerCatch (body : BoxState → Action → Except String BoxState)
    (state : BoxState) (action : Action) : BoxState :=
  match body state action with
  | .ok s => s
  | .error _ => { state with error := some GENERIC_ERROR, loading := false }

/-- `boxReducer` from `src/context/BoxContext.js`: the switch body (which
never throws in this embedding) wrapped in the catch boundary. -/
def boxReducer (state : BoxState) (action : Action) : BoxState :=
  reducerCatch (fun s a => Except.ok (boxReducerBody s a)) state action

/-- The data object passed to the `addBox` context action (the output of
`getSubmissionData`); `weight = none` models `NaN`, `country = none` an
absent country. -/
structure BoxData where
  receiverName : String
  weight : Option ℚ
  boxColor : String
  country : Option String
deriving Repr, DecidableEq

/-- The `{success, error}` result of a context action. -/
structure ActionResult where
  success : Bool
  error : Option String
deriving Repr, DecidableEq

/-- The `boxWithDetails` record built inside the `addBox` context action:
the candidate data plus fresh id, computed cost and timestamps. -/
def buildBox (d : BoxData) (newId now : String) (cost : ℚ) : Box :=
  { id := newId, receiverName := d.receiverName, boxColor := d.boxColor
    weight := d.weight, country := d.country, shippingCost := some cost
    createdAt := now, updatedAt := now }

/-- The `addBox` context action from `src/context/BoxContext.js`; `none`
for `boxData` models a null/non-object argument, `newId` the value of
`generateId()` and `now` the creation timestamp. -/
def addBoxOp (s : BoxState) (boxData : Option BoxData) (newId now : String) :
    BoxState × ActionResult :=
  let s1 := boxReducer s (.setLoading true)
  match boxData with
  | none =>
    (boxReducer s1 (.setError "Invalid box data provided"),
     ⟨false, some "Invalid box data provided"⟩)
  | some d =>
    match calculateShippingCost d.weight d.country with
    | .error msg => (boxReducer s1 (.setError msg), ⟨false, some msg⟩)
    | .ok cost =>
      (boxReducer s1 (.addBox (buildBox d newId now cost)), ⟨true, none⟩)

/-- The `removeBox` context action; an empty id is the falsy case that
throws `Box ID is required`. -/
def removeBoxOp (s : BoxState) (boxId : String) : BoxState × ActionResult :=
  if boxId = "" then
    (boxReducer s (.setError "Box ID is required"), ⟨false, some "Box ID is required"⟩)
  else
    (boxReducer s (.removeBox boxId), ⟨true, none⟩)

/-- The `updateBox` context action from `src/context/BoxContext.js`:
recomputes `shippingCost` when `weight` or `country` is among the updated
fields and a record with the id exists, refreshes `updatedAt`, then
dispatches `UPDATE_BOX`; a throw from the pricing function is caught and
becomes `SET_ERROR`. -/
def updateBoxOp (s : BoxState) (boxId : String) (updates : Option BoxUpdates)
    (now : String) : BoxState × ActionResult :=
  match updates with
  | none =>
    (boxReducer s (.setError "Box ID and updates are required"),
     ⟨false, some "Box ID and updates are required"⟩)
  | some u =>
    if boxId = "" then
      (boxReducer s (.setError "Box ID and updates are required"),
       ⟨false, some "Box ID and updates are required"⟩)
    else
      let step : Except String BoxUpdates :=
        if u.weight.isSome || u.country.isSome then
          match s.boxes.find? (fun b => b.id == boxId) with
          | some box =>
            let newWeight := match u.weight with | some w => some w | none => box.weight
            let newCountry := match u.country with | some c => some c | none => box.country
            match calculateShippingCost newWeight newCountry with
            | .ok cost => .ok { u with shippingCost := some cost }
            | .error m => .error m
          | none => .ok u
        else .ok u
      match step with
      | .error m => (boxReducer s (.setError m), ⟨false, some m⟩)
      | .ok u1 =>
        (boxReducer s (.updateBox boxId { u1 with updatedAt := some now }), ⟨true, none⟩)

/-! ## Concrete scenario constants (spec section 8 store scenario) -/

/-- The submission data for the Alice scenario: weight 2, country China. -/
def aliceData : BoxData := ⟨"Alice", some 2, "(52, 152, 219)", some "China"⟩

/-- The record the Alice scenario appends. -/
def aliceBox : Box :=
  ⟨"box_1", "Alice", "(52, 152, 219)", some 2, some "China", some (2306 / 100), "t1", "t1"⟩

/-- The store state after adding the Alice record to the initial state. -/
def aliceState : BoxState :=
  (addBoxOp createInitialState (some aliceData) "box_1" "t1").1

/-- An existing China-destined record for the update scenario. -/
def chinaBox : Box :=
  ⟨"box_9", "Bob", "(0, 0, 0)", some 2, some "China", some (2306 / 100), "t0", "t0"⟩

/-- A store state holding exactly the China-destined record. -/
def chinaState : BoxState := ⟨[chinaBox], false, none, ⟨1, 2, 2306 / 100⟩⟩

/-- The partial update `{weight: 10}`. -/
def weightTo10 : BoxUpdates := ⟨none, none, some 10, none, none, none⟩

/-! ## Shared helper lemmas -/

lemma rate_of_empty_key : SHIPPING_RATES "" = none := by decide

lemma jsToUpper_empty : jsToUpper "" = "" := rfl

lemma calcCost_of_rate {w : ℚ} {c : String} {r : ℚ} (hw : 0 < w)
    (hr : SHIPPING_RATES (jsToUpper c) = some r) :
    calculateShippingCost (some w) (some c) = Except.ok (round2 (w * r)) := by
  have hc : c ≠ "" := by
    intro h
    rw [h, jsToUpper_empty, rate_of_empty_key] at hr
    exact Option.noConfusion hr
  have hcond : ¬(w = 0 ∨ c = "" ∨ w ≤ 0) := by
    push_neg
    exact ⟨ne_of_gt hw, hc, hw⟩
  simp only [calculateShippingCost, if_neg hcond, hr]

lemma china_rate : SHIPPING_RATES (jsToUpper "China") = some (1153 / 100) := by
  rw [show jsToUpper "China" = "CHINA" from by decide]
  simp [SHIPPING_RATES]

lemma round2_alice : round2 (2 * (1153 / 100)) = 2306 / 100 := by
  unfold round2; norm_num

lemma round2_china10 : round2 (10 * (1153 / 100)) = 1153 / 10 := by
  unfold round2; norm_num

/-! ## Claim theorems -/

/-- C2: the pricing function is asymmetric about missing data: a falsy,
zero or negative weight gives 0 with no error; an absent or empty country
gives 0; a positive weight with a non-empty country that has no matching
rate signals the unknown-country error instead of returning 0. -/
theorem pricing_missing_data_asymmetry :
    (∀ (w : Option ℚ) (c : Option String),
      (w = none ∨ w = some 0 ∨ ∃ q, w = some q ∧ q < 0) →
        calculateShippingCost w c = Except.ok 0)
  ∧ (∀ (w : Option ℚ) (c : Option String),
      (c = none ∨ c = some "") → calculateShippingCost w c = Except.ok 0)
  ∧ (∀ (q : ℚ) (c : String), 0 < q → c ≠ "" → SHIPPING_RATES (jsToUpper c) = none →
      calculateShippingCost (some q) (some c)
        = Except.error ("Shipping rate not found for country: " ++ c)) := by
  refine ⟨?_, ?_, ?_⟩
  · rintro w c (rfl | rfl | ⟨q, rfl, hq⟩)
    · rfl
    · cases c with
      | none => rfl
      | some s => simp [calculateShippingCost]
    · cases c with
      | none => rfl
      | some s =>
        have : (q = 0 ∨ s = "" ∨ q ≤ 0) := Or.inr (Or.inr (le_of_lt hq))
        simp only [calculateShippingCost, if_pos this]
  · rintro w c (rfl | rfl)
    · cases w <;> rfl
    · cases w with
      | none => rfl
      | some q => simp [calculateShippingCost]
  · intro q c hq hc hr
    have hcond : ¬(q = 0 ∨ c = "" ∨ q ≤ 0) := by
      push_neg
      exact ⟨ne_of_gt hq, hc, hq⟩
    simp only [calculateShippingCost, if_neg hcond, hr]

/-- Witness for C2 at concrete inputs: weight −3 prices to 0, an empty
country prices to 0, and country "Mars" with weight 1 raises the
unknown-country error. -/
theorem pricing_missing_data_asymmetry_witness :
    calculateShippingCost (some (-3)) (some "Sweden") = Except.ok 0
  ∧ calculateShippingCost (some 5) (some "") = Except.ok 0
  ∧ calculateShippingCost (some 1) (some "Mars")
      = Except.error ("Shipping rate not found for country: " ++ "Mars") :=
  ⟨pricing_missing_data_asymmetry.1 (some (-3)) (some "Sweden")
      (Or.inr (Or.inr ⟨-3, rfl, by norm_num⟩)),
   pricing_missing_data_asymmetry.2.1 (some 5) (some "") (Or.inr rfl),
   pricing_missing_data_asymmetry.2.2 1 "Mars" (by norm_num) (by decide) (by decide)⟩

/-- C3: the rate table maps SWEDEN to 7.35, CHINA to 11.53, BRAZIL to
15.63 and AUSTRALIA to 50.09, the key is matched case-insensitively, and
for every positive weight `w` and matching rate `r` the price is
`round2 (w * r)`. -/
theorem pricing_supported_country :
    SHIPPING_RATES "SWEDEN" = some (735 / 100)
  ∧ SHIPPING_RATES "CHINA" = some (1153 / 100)
  ∧ SHIPPING_RATES "BRAZIL" = some (1563 / 100)
  ∧ SHIPPING_RATES "AUSTRALIA" = some (5009 / 100)
  ∧ (∀ (w : ℚ) (c : String) (r : ℚ), 0 < w → SHIPPING_RATES (jsToUpper c) = some r →
      calculateShippingCost (some w) (some c) = Except.ok (round2 (w * r))) := by
  refine ⟨by simp [SHIPPING_RATES], by simp [SHIPPING_RATES], by simp [SHIPPING_RATES],
    by simp [SHIPPING_RATES], ?_⟩
  intro w c r hw hr
  exact calcCost_of_rate hw hr

/-- Witness for C3: 2 kg to "China" (mixed case) prices to
`round2 (2 * 11.53) = 23.06`. -/
theorem pricing_supported_country_witness :
    calculateShippingCost (some 2) (some "China") = Except.ok (round2 (2 * (1153 / 100)))
  ∧ round2 (2 * (1153 / 100)) = 2306 / 100 :=
  ⟨pricing_supported_country.2.2.2.2 2 "China" (1153 / 100) (by norm_num) china_rate,
   round2_alice⟩

lemma pow_ten_pos (k : ℕ) : (0 : ℚ) < 10 ^ k := by positivity

lemma repVal_neg_iff (z : ℤ) (k : ℕ) : ((z : ℚ) / 10 ^ k < 0) ↔ z < 0 := by
  rw [div_lt_iff₀ (pow_ten_pos k)]
  simp

lemma repVal_zero_iff (z : ℤ) (k : ℕ) : ((z : ℚ) / 10 ^ k = 0) ↔ z = 0 := by
  rw [div_eq_zero_iff]
  simp [ne_of_gt (pow_ten_pos k)]

lemma repVal_big_iff (z : ℤ) (k : ℕ) :
    (10000 < (z : ℚ) / 10 ^ k) ↔ 10000 * 10 ^ k < z := by
  rw [lt_div_iff₀ (pow_ten_pos k)]
  constructor
  · intro h; exact_mod_cast h
  · intro h; exact_mod_cast h

lemma errors_weight_eq (f : BoxForm) :
    (validateBoxForm f).errors.weight = validateWeight f.weight := rfl

lemma validateWeight_some {w : String} {p : ℤ × ℕ} (hne : w ≠ "")
    (h : jsParseFloatRep w = some p) :
    validateWeight w
      = (if p.1 < 0 then some "Negative values are not permitted for weight."
        else if p.1 = 0 then some "Weight must be greater than 0 kg."
        else if 10000 * 10 ^ p.2 < p.1 then
          some "Weight cannot exceed 10,000 kg. Please check the weight."
        else none) := by
  unfold validateWeight
  rw [if_neg hne, h]

/-- C7: the weight branch of validation: empty weight gives the required
message, unparsable weight the numeric message, negative the negative
message, exactly zero the "must be greater than 0" message, above 10000
the limit message; and `isValid` holds iff the error map is empty. -/
theorem validation_weight_branches :
    (∀ f : BoxForm, f.weight ≠ "" → jsParseFloat f.weight = some 0 →
      (validateBoxForm f).errors.weight = some "Weight must be greater than 0 kg.")
  ∧ (∀ f : BoxForm, f.weight = "" →
      (validateBoxForm f).errors.weight
        = some "Weight is required. Please enter the package weight in kilograms.")
  ∧ (∀ f : BoxForm, f.weight ≠ "" → jsParseFloat f.weight = none →
      (validateBoxForm f).errors.weight = some "Please enter a valid numeric weight value.")
  ∧ (∀ (f : BoxForm) (q : ℚ), f.weight ≠ "" → jsParseFloat f.weight = some q → q < 0 →
      (validateBoxForm f).errors.weight = some "Negative values are not permitted for weight.")
  ∧ (∀ (f : BoxForm) (q : ℚ), f.weight ≠ "" → jsParseFloat f.weight = some q → 10000 < q →
      (validateBoxForm f).errors.weight
        = some "Weight cannot exceed 10,000 kg. Please check the weight.")
  ∧ (∀ f : BoxForm,
      (validateBoxForm f).isValid = true ↔ (validateBoxForm f).errors = ⟨none, none, none⟩) := by
  refine ⟨?_, ?_, ?_, ?_, ?_, ?_⟩
  · intro f hne h0
    rw [errors_weight_eq]
    unfold jsParseFloat at h0
    cases hrep : jsParseFloatRep f.weight with
    | none => rw [hrep] at h0; exact Option.noConfusion h0
    | some p =>
      rw [hrep] at h0
      simp only [Option.map_some', Option.some.injEq] at h0
      have hz : p.1 = 0 := (repVal_zero_iff p.1 p.2).mp h0
      rw [validateWeight_some hne hrep, if_neg (by simp [hz]), if_pos hz]
  · intro f he
    rw [errors_weight_eq]
    unfold validateWeight
    rw [if_pos he]
  · intro f hne hn
    rw [errors_weight_eq]
    unfold jsParseFloat at hn
    cases hrep : jsParseFloatRep f.weight with
    | some p => rw [hrep] at hn; exact Option.noConfusion hn
    | none =>
      unfold validateWeight
      rw [if_neg hne, hrep]
  · intro f q hne hq hneg
    rw [errors_weight_eq]
    unfold jsParseFloat at hq
    cases hrep : jsParseFloatRep f.weight with
    | none => rw [hrep] at hq; exact Option.noConfusion hq
    | some p =>
      rw [hrep] at hq
      simp only [Option.map_some', Option.some.injEq] at hq
      have hz : p.1 < 0 := (repVal_neg_iff p.1 p.2).mp (hq ▸ hneg)
      rw [validateWeight_some hne hrep, if_pos hz]
  · intro f q hne hq hbig
    rw [errors_weight_eq]
    unfold jsParseFloat at hq
    cases hrep : jsParseFloatRep f.weight with
    | none => rw [hrep] at hq; exact Option.noConfusion hq
    | some p =>
      rw [hrep] at hq
      simp only [Option.map_some', Option.some.injEq] at hq
      have hbig2 : 10000 * 10 ^ p.2 < p.1 := (repVal_big_iff p.1 p.2).mp (hq ▸ hbig)
      have hpos : (0 : ℤ) < p.1 :=
        lt_trans (by positivity) hbig2
      rw [validateWeight_some hne hrep, if_neg (not_lt.mpr (le_of_lt hpos)),
        if_neg (ne_of_gt hpos), if_pos hbig2]
  · intro f
    simp only [validateBoxForm]
    simp [Bool.and_eq_true, Option.isNone_iff_eq_none, ValidationErrors.mk.injEq, and_assoc]

/-- Witness for C7: weight "0" yields the greater-than-0 message, "" the
required message, "abc" the numeric message, "-2" the negative message,
"10001" the limit message; and a fully valid form has `isValid = true`
with an empty error map. -/
theorem validation_weight_branches_witness :
    (validateBoxForm ⟨"John", "0", "Sweden"⟩).errors.weight
      = some "Weight must be greater than 0 kg."
  ∧ (validateBoxForm ⟨"John", "", "Sweden"⟩).errors.weight
      = some "Weight is required. Please enter the package weight in kilograms."
  ∧ (validateBoxForm ⟨"John", "abc", "Sweden"⟩).errors.weight
      = some "Please enter a valid numeric weight value."
  ∧ (validateBoxForm ⟨"John", "-2", "Sweden"⟩).errors.weight
      = some "Negative values are not permitted for weight."
  ∧ (validateBoxForm ⟨"John", "10001", "Sweden"⟩).errors.weight
      = some "Weight cannot exceed 10,000 kg. Please check the weight."
  ∧ ((validateBoxForm ⟨"John", "1.5", "Sweden"⟩).isValid = true
      ↔ (validateBoxForm ⟨"John", "1.5", "Sweden"⟩).errors = ⟨none, none, none⟩) :=
  ⟨validation_weight_branches.1 ⟨"John", "0", "Sweden"⟩ (by decide)
      (by rw [jsParseFloat, show jsParseFloatRep "0" = some (0, 0) from by decide]; norm_num),
   validation_weight_branches.2.1 ⟨"John", "", "Sweden"⟩ rfl,
   validation_weight_branches.2.2.1 ⟨"John", "abc", "Sweden"⟩ (by decide)
      (by rw [jsParseFloat, show jsParseFloatRep "abc" = none from by decide]; rfl),
   validation_weight_branches.2.2.2.1 ⟨"John", "-2", "Sweden"⟩ (-2) (by decide)
      (by rw [jsParseFloat, show jsParseFloatRep "-2" = some (-2, 0) from by decide]; norm_num)
      (by norm_num),
   validation_weight_branches.2.2.2.2.1 ⟨"John", "10001", "Sweden"⟩ 10001 (by decide)
      (by rw [jsParseFloat, show jsParseFloatRep "10001" = some (10001, 0) from by decide]
          norm_num)
      (by norm_num),
   validation_weight_branches.2.2.2.2.2 ⟨"John", "1.5", "Sweden"⟩⟩

lemma alice_cost : calculateShippingCost (some 2) (some "China") = Except.ok (2306 / 100) := by
  rw [calcCost_of_rate (by norm_num) china_rate, round2_alice]

lemma aliceState_eq :
    aliceState
      = { boxes := [aliceBox], loading := false, error := none
          statistics := ⟨1, 2, 2306 / 100⟩ } := by
  unfold aliceState addBoxOp
  simp only [aliceData, alice_cost]
  simp [boxReducer, reducerCatch, boxReducerBody, createInitialState, calculateStatistics,
    aliceBox, buildBox]

/-- C4: after every load, add, remove, or update action the statistics
field equals the aggregate recomputed from the resulting record sequence;
adding the Alice record (weight 2, China) to the initial state yields
totalBoxes 1, totalWeight 2, totalCost 23.06, and removing its id yields
totalBoxes 0. -/
theorem statistics_recomputed :
    (∀ (s : BoxState) (p : Option (List Box)),
      (boxReducer s (.loadBoxes p)).statistics
        = calculateStatistics (boxReducer s (.loadBoxes p)).boxes)
  ∧ (∀ (s : BoxState) (b : Box),
      (boxReducer s (.addBox b)).statistics
        = calculateStatistics (boxReducer s (.addBox b)).boxes)
  ∧ (∀ (s : BoxState) (i : String),
      (boxReducer s (.removeBox i)).statistics
        = calculateStatistics (boxReducer s (.removeBox i)).boxes)
  ∧ (∀ (s : BoxState) (i : String) (u : BoxUpdates),
      (boxReducer s (.updateBox i u)).statistics
        = calculateStatistics (boxReducer s (.updateBox i u)).boxes)
  ∧ aliceState.statistics = ⟨1, 2, 2306 / 100⟩
  ∧ (removeBoxOp aliceState "box_1").1.statistics.totalBoxes = 0 := by
  refine ⟨fun s p => rfl, fun s b => rfl, fun s i => rfl, fun s i u => rfl, ?_, ?_⟩
  · rw [aliceState_eq]
  · rw [aliceState_eq]
    simp [removeBoxOp, boxReducer, reducerCatch, boxReducerBody, aliceBox, calculateStatistics]

/-- C6: the catch boundary of the reducer keeps the previous record
sequence and sets the fixed generic message whenever the transition body
throws, and an unknown action kind returns the state unchanged. -/
theorem reducer_exception_atomic :
    (∀ (body : BoxState → Action → Except String BoxState) (s : BoxState) (a : Action)
        (e : String),
      body s a = Except.error e →
        reducerCatch body s a = { s with error := some GENERIC_ERROR, loading := false })
  ∧ (∀ (s : BoxState) (t : String), boxReducer s (.unknown t) = s) := by
  constructor
  · intro body s a e h
    unfold reducerCatch
    rw [h]
  · intro s t
    rfl

/-- Witness for C6: a body that throws leaves the initial state's (empty)
record sequence intact with the generic error set, and an unknown action
leaves the initial state unchanged. -/
theorem reducer_exception_atomic_witness :
    reducerCatch (fun _ _ => Except.error "boom") createInitialState Action.clearError
      = { createInitialState with error := some GENERIC_ERROR, loading := false }
  ∧ boxReducer createInitialState (.unknown "NOT_A_REAL_ACTION") = createInitialState :=
  ⟨reducer_exception_atomic.1 (fun _ _ => Except.error "boom") createInitialState
      Action.clearError "boom" rfl,
   reducer_exception_atomic.2 createInitialState "NOT_A_REAL_ACTION"⟩

/-- C10: for every state, the remove and update transitions reset the
top-level error to null, whether or not any record matches the id. -/
theorem remove_update_reset_error :
    ∀ (s : BoxState) (i : String) (u : BoxUpdates),
      (boxReducer s (.removeBox i)).error = none
      ∧ (boxReducer s (.updateBox i u)).error = none :=
  fun _ _ _ => ⟨rfl, rfl⟩

/-- C1 (counterexample): a candidate that fails the validation function
(empty receiver name and zero weight) is nevertheless appended by the add
operation — `addBox` never invokes `validateBoxForm`. -/
theorem addBox_skips_validation_cex :
    (validateBoxForm ⟨"", "0", "China"⟩).isValid = false
  ∧ ((addBoxOp createInitialState (some ⟨"", some 0, "(0, 0, 0)", some "China"⟩)
      "box_1" "t1").1).boxes.length = 1 := by
  constructor
  · decide
  · simp [addBoxOp, calculateShippingCost, boxReducer, reducerCatch, boxReducerBody,
      createInitialState]

/-- C1 (amended): the add operation does not run the validation function;
it appends the priced record whenever the candidate is a present object
and the pricing function returns a cost, and appends nothing when the
candidate is absent or pricing throws. -/
theorem addBox_appends_whenever_priced :
    (∀ (s : BoxState) (d : BoxData) (newId now : String) (cost : ℚ),
      calculateShippingCost d.weight d.country = Except.ok cost →
        (addBoxOp s (some d) newId now).1.boxes
          = s.boxes ++ [buildBox d newId now cost])
  ∧ (∀ (s : BoxState) (newId now : String),
      (addBoxOp s none newId now).1.boxes = s.boxes)
  ∧ (∀ (s : BoxState) (d : BoxData) (newId now : String) (m : String),
      calculateShippingCost d.weight d.country = Except.error m →
        (addBoxOp s (some d) newId now).1.boxes = s.boxes) := by
  refine ⟨?_, ?_, ?_⟩
  · intro s d newId now cost h
    simp only [addBoxOp, h]
    simp [boxReducer, reducerCatch, boxReducerBody]
  · intro s newId now
    rfl
  · intro s d newId now m h
    simp only [addBoxOp, h]
    simp [boxReducer, reducerCatch, boxReducerBody]

/-- Witness for C1 (amended): the validation-failing candidate with zero
weight prices to 0 and is appended as a full record. -/
theorem addBox_appends_whenever_priced_witness :
    (addBoxOp createInitialState (some ⟨"", some 0, "(0, 0, 0)", some "China"⟩)
        "box_2" "t2").1.boxes
      = createInitialState.boxes
          ++ [buildBox ⟨"", some 0, "(0, 0, 0)", some "China"⟩ "box_2" "t2" 0] :=
  addBox_appends_whenever_priced.1 createInitialState
    ⟨"", some 0, "(0, 0, 0)", some "China"⟩ "box_2" "t2" 0
    (by simp [calculateShippingCost])

/-- C5: an update to a non-existent id leaves the record sequence
unchanged; when weight or country is among the updated fields and a record
matches, the shipping cost of the updated record is recomputed from the
merged weight and country, so the stored cost is consistent with the
record's current weight and country. -/
theorem update_recomputes_shipping :
    (∀ (s : BoxState) (i : String) (u : BoxUpdates) (now : String),
      i ≠ "" → (∀ b ∈ s.boxes, b.id ≠ i) →
        (updateBoxOp s i (some u) now).1.boxes = s.boxes)
  ∧ (∀ (s : BoxState) (i : String) (u : BoxUpdates) (now : String) (b : Box) (cost : ℚ),
      i ≠ "" →
      s.boxes.find? (fun x => x.id == i) = some b →
      (u.weight.isSome || u.country.isSome) = true →
      calculateShippingCost
          (match u.weight with | some w => some w | none => b.weight)
          (match u.country with | some c => some c | none => b.country)
        = Except.ok cost →
        (updateBoxOp s i (some u) now).1.boxes
          = s.boxes.map (fun x =>
              if x.id = i then applyUpdates x (withCost u cost now) else x)
        ∧ (applyUpdates b (withCost u cost now)).shippingCost = some cost
        ∧ calculateShippingCost (applyUpdates b (withCost u cost now)).weight
            (applyUpdates b (withCost u cost now)).country
          = Except.ok cost) := by
  constructor
  · intro s i u now hi hnone
    have hfind : s.boxes.find? (fun x => x.id == i) = none := by
      rw [List.find?_eq_none]
      intro b hb
      simp [hnone b hb]
    have hmap : ∀ u2 : BoxUpdates,
        (boxReducer s (.updateBox i u2)).boxes = s.boxes := by
      intro u2
      simp only [boxReducer, reducerCatch, boxReducerBody]
      have h2 : s.boxes.map (fun box => if box.id = i then applyUpdates box u2 else box)
          = s.boxes.map id := by
        apply List.map_congr_left
        intro b hb
        simp [hnone b hb]
      simp [h2]
    cases hf : (u.weight.isSome || u.country.isSome) with
    | true =>
      simp only [updateBoxOp, if_neg hi, hf, hfind, if_true]
      exact hmap _
    | false =>
      simp only [updateBoxOp, if_neg hi, hf, Bool.false_eq_true, if_false]
      exact hmap _
  · intro s i u now b cost hi hfind hfields hcost
    refine ⟨?_, rfl, ?_⟩
    · simp only [updateBoxOp, if_neg hi, hfields, if_true, hfind, hcost]
      simp only [boxReducer, reducerCatch, boxReducerBody]
      rfl
    · exact hcost

/-- Witness for C5: updating the existing China-destined record's weight
to 10 recomputes its shipping cost to `round2 (10 * 11.53) = 115.30`, and
an update to an absent id leaves the record sequence unchanged. -/
theorem update_recomputes_shipping_witness :
    ((updateBoxOp chinaState "box_9" (some weightTo10) "t1").1.boxes
        = [applyUpdates chinaBox (withCost weightTo10 (round2 (10 * (1153 / 100))) "t1")]
      ∧ (applyUpdates chinaBox
          (withCost weightTo10 (round2 (10 * (1153 / 100))) "t1")).shippingCost
        = some (round2 (10 * (1153 / 100)))
      ∧ round2 (10 * (1153 / 100)) = 1153 / 10)
  ∧ (updateBoxOp chinaState "nope" (some weightTo10) "t1").1.boxes = chinaState.boxes := by
  have h := update_recomputes_shipping.2 chinaState "box_9" weightTo10 "t1" chinaBox
    (round2 (10 * (1153 / 100))) (by decide)
    (by simp [chinaState, chinaBox, List.find?])
    (by simp [weightTo10])
    (by simpa [weightTo10, chinaBox] using
      calcCost_of_rate (w := 10) (by norm_num) china_rate)
  refine ⟨⟨?_, h.2.1, round2_china10⟩, ?_⟩
  · rw [h.1]
    simp [chinaState, chinaBox]
  · exact update_recomputes_shipping.1 chinaState "nope" weightTo10 "t1" (by decide)
      (by simp [chinaState, chinaBox])

lemma mk_ne_empty {a : Char} {l : List Char} : (⟨a :: l⟩ : String) ≠ "" := by
  intro h
  have h2 : a :: l = ([] : List Char) := congrArg String.data h
  exact List.noConfusion h2

lemma isHexDigit_ne_hash {c : Char} (h : isHexDigit c = true) : c ≠ '#' := by
  intro he
  rw [he] at h
  exact absurd h (by decide)

lemma hexSix_shape {m : List Char} {r : Char × Char × Char × Char × Char × Char}
    (h : hexSix m = some r) : (m.length == 6 && m.all isHexDigit) = true := by
  rcases m with _ | ⟨a, _ | ⟨b, _ | ⟨c, _ | ⟨d, _ | ⟨e, _ | ⟨f, _ | ⟨g, rest⟩⟩⟩⟩⟩⟩⟩ <;>
    simp only [hexSix] at h
  all_goals try exact Option.noConfusion h
  by_cases hx : (isHexDigit a && isHexDigit b && isHexDigit c
      && isHexDigit d && isHexDigit e && isHexDigit f) = true
  · simp only [Bool.and_eq_true] at hx
    simp [List.all_cons, hx.1, hx.2]
  · rw [if_neg hx] at h
    exact Option.noConfusion h

lemma hexMatch_shape {l : List Char} {r : Char × Char × Char × Char × Char × Char}
    (h : hexMatch l = some r) : hexShapeL l = true := by
  unfold hexMatch at h
  unfold hexShapeL
  by_cases hh : l.head? = some '#'
  · rw [if_pos hh] at h
    rw [if_pos hh]
    exact Bool.or_eq_true _ _ |>.mpr (Or.inr (hexSix_shape h))
  · rw [if_neg hh] at h
    exact Bool.or_eq_true _ _ |>.mpr (Or.inl (hexSix_shape h))

lemma hexMatch_none {l : List Char} (h : hexShapeL l = false) : hexMatch l = none := by
  cases hm : hexMatch l with
  | none => rfl
  | some r => rw [hexMatch_shape hm] at h; exact Bool.noConfusion h

/-- C9: the hex encoder is total: any six hex digits, with or without a
leading `#`, case-insensitively, produce the decimal triplet string, and
every other input (non-string, empty, wrong length, non-hex characters)
produces the fallback `"(0, 0, 0)"`. -/
theorem hexToRgb_total :
    (∀ a b c d e f : Char,
      isHexDigit a = true → isHexDigit b = true → isHexDigit c = true →
      isHexDigit d = true → isHexDigit e = true → isHexDigit f = true →
        hexToRgb (some ⟨[a, b, c, d, e, f]⟩)
            = "(" ++ toString (16 * hexVal a + hexVal b) ++ ", "
                ++ toString (16 * hexVal c + hexVal d) ++ ", "
                ++ toString (16 * hexVal e + hexVal f) ++ ")"
          ∧ hexToRgb (some ⟨'#' :: [a, b, c, d, e, f]⟩)
            = "(" ++ toString (16 * hexVal a + hexVal b) ++ ", "
                ++ toString (16 * hexVal c + hexVal d) ++ ", "
                ++ toString (16 * hexVal e + hexVal f) ++ ")")
  ∧ (∀ s : String, hexShape s = false → hexToRgb (some s) = "(0, 0, 0)")
  ∧ hexToRgb none = "(0, 0, 0)" := by
  refine ⟨?_, ?_, rfl⟩
  · intro a b c d e f ha hb hc hd he hf
    have hna : a ≠ '#' := isHexDigit_ne_hash ha
    constructor
    · have hbody : hexMatch [a, b, c, d, e, f] = some (a, b, c, d, e, f) := by
        simp only [hexMatch, List.head?_cons]
        rw [if_neg (by simp [hna])]
        simp [hexSix, ha, hb, hc, hd, he, hf]
      simp only [hexToRgb]
      rw [if_neg mk_ne_empty]
      rw [hbody]
    · have hbody : hexMatch ('#' :: [a, b, c, d, e, f]) = some (a, b, c, d, e, f) := by
        simp only [hexMatch, List.head?_cons, List.tail_cons, if_true]
        simp [hexSix, ha, hb, hc, hd, he, hf]
      simp only [hexToRgb]
      rw [if_neg mk_ne_empty]
      rw [hbody]
  · intro s hs
    simp only [hexToRgb]
    by_cases he : s = ""
    · rw [if_pos he]
    · rw [if_neg he, hexMatch_none hs]

/-- Witness for C9: `"#ff0000"` encodes to `"(255, 0, 0)"` and
`"invalid"` falls back to `"(0, 0, 0)"`. -/
theorem hexToRgb_total_witness :
    hexToRgb (some ⟨'#' :: ['f', 'f', '0', '0', '0', '0']⟩)
      = "(" ++ toString (16 * hexVal 'f' + hexVal 'f') ++ ", "
          ++ toString (16 * hexVal '0' + hexVal '0') ++ ", "
          ++ toString (16 * hexVal '0' + hexVal '0') ++ ")"
  ∧ hexToRgb (some "#ff0000") = "(255, 0, 0)"
  ∧ hexToRgb (some "invalid") = "(0, 0, 0)" :=
  ⟨(hexToRgb_total.1 'f' 'f' '0' '0' '0' '0' (by decide) (by decide) (by decide) (by decide)
      (by decide) (by decide)).2,
   by decide,
   hexToRgb_total.2.1 "invalid" (by decide)⟩

lemma digit_not_space {c : Char} (h : c.isDigit = true) : isSpaceChar c = false := by
  have h1 : c ≠ ' ' := by intro e; rw [e] at h; exact absurd h (by decide)
  have h2 : c ≠ '\t' := by intro e; rw [e] at h; exact absurd h (by decide)
  have h3 : c ≠ '\n' := by intro e; rw [e] at h; exact absurd h (by decide)
  have h4 : c ≠ '\r' := by intro e; rw [e] at h; exact absurd h (by decide)
  simp [isSpaceChar, h1, h2, h3, h4]

lemma takeWhile_digits (d : List Char) (c : Char) (t : List Char) :
    (∀ x ∈ d, x.isDigit = true) → c.isDigit = false →
    (d ++ c :: t).takeWhile Char.isDigit = d
      ∧ (d ++ c :: t).dropWhile Char.isDigit = c :: t := by
  induction d with
  | nil =>
    intro _ hc
    constructor
    · exact List.takeWhile_cons_of_neg (by simp [hc])
    · exact List.dropWhile_cons_of_neg (by simp [hc])
  | cons x xs ih =>
    intro hd hc
    have hx : x.isDigit = true := hd x (List.mem_cons_self _ _)
    have hih := ih (fun y hy => hd y (List.mem_cons_of_mem _ hy)) hc
    constructor
    · rw [List.cons_append, List.takeWhile_cons_of_pos (by simp [hx]), hih.1]
    · rw [List.cons_append, List.dropWhile_cons_of_pos (by simp [hx]), hih.2]

lemma takeDigits_prefix (d : List Char) (c : Char) (t : List Char)
    (hd : ∀ x ∈ d, x.isDigit = true) (hc : c.isDigit = false) :
    takeDigits (d ++ c :: t) = (d, c :: t) := by
  have h := takeWhile_digits d c t hd hc
  unfold takeDigits
  rw [h.1, h.2]

/-- C8 (counterexample): the decoder's regex is not anchored, so a string
that is not of the exact encoder shape can still decode: `"x(1, 2, 3)"`
yields `"rgb(1, 2, 3)"`, not the fallback. -/
theorem rgbToColor_unanchored_cex :
    rgbToColor (some "x(1, 2, 3)") = "rgb(1, 2, 3)"
  ∧ rgbToColor (some "x(1, 2, 3)") ≠ "#000000" := by
  constructor <;> decide

/-- C8 (amended): the decoder returns `"rgb(r, g, b)"` for any string
containing a parenthesized digit triplet (optional whitespace after the
commas), taking the leftmost match — in particular every encoder output —
and returns the fallback `"#000000"` exactly when no such substring
exists (including the empty string and non-strings). -/
theorem rgbToColor_embedded_triplet :
    (∀ d1 d2 d3 : List Char, d1 ≠ [] → d2 ≠ [] → d3 ≠ [] →
      (∀ c ∈ d1, c.isDigit = true) → (∀ c ∈ d2, c.isDigit = true) →
      (∀ c ∈ d3, c.isDigit = true) →
        rgbToColor (some ⟨'(' :: (d1 ++ ',' :: ' ' :: (d2 ++ ',' :: ' ' :: (d3 ++ [')'])))⟩)
          = "rgb(" ++ String.mk d1 ++ ", " ++ String.mk d2 ++ ", " ++ String.mk d3 ++ ")")
  ∧ (∀ s : String, findTriplet s.data = none → rgbToColor (some s) = "#000000")
  ∧ rgbToColor none = "#000000" := by
  refine ⟨?_, ?_, rfl⟩
  · intro d1 d2 d3 h1 h2 h3 hd1 hd2 hd3
    obtain ⟨y2, t2, rfl⟩ := List.exists_cons_of_ne_nil h2
    obtain ⟨y3, t3, rfl⟩ := List.exists_cons_of_ne_nil h3
    have hy2 : isSpaceChar y2 = false := digit_not_space (hd2 y2 (List.mem_cons_self _ _))
    have hy3 : isSpaceChar y3 = false := digit_not_space (hd3 y3 (List.mem_cons_self _ _))
    have htd1 : takeDigits (d1 ++ ',' :: ' ' :: (y2 :: t2 ++ ',' :: ' ' :: (y3 :: t3 ++ [')'])))
        = (d1, ',' :: ' ' :: (y2 :: t2 ++ ',' :: ' ' :: (y3 :: t3 ++ [')']))) :=
      takeDigits_prefix d1 ',' _ hd1 (by decide)
    have htd2 : takeDigits (y2 :: t2 ++ ',' :: ' ' :: (y3 :: t3 ++ [')']))
        = (y2 :: t2, ',' :: ' ' :: (y3 :: t3 ++ [')'])) := by
      have h := takeDigits_prefix (y2 :: t2) ',' (' ' :: (y3 :: t3 ++ [')'])) hd2 (by decide)
      simpa using h
    have htd3 : takeDigits (y3 :: t3 ++ [')']) = (y3 :: t3, [')']) := by
      have h := takeDigits_prefix (y3 :: t3) ')' [] hd3 (by decide)
      simpa using h
    have hdw2 : List.dropWhile isSpaceChar (' ' :: (y2 :: t2 ++ ',' :: ' ' :: (y3 :: t3 ++ [')'])))
        = y2 :: t2 ++ ',' :: ' ' :: (y3 :: t3 ++ [')']) := by
      rw [List.dropWhile_cons_of_pos (by decide)]
      exact List.dropWhile_cons_of_neg (by simp [hy2])
    have hdw3 : List.dropWhile isSpaceChar (' ' :: (y3 :: t3 ++ [')'])) = y3 :: t3 ++ [')'] := by
      rw [List.dropWhile_cons_of_pos (by decide)]
      exact List.dropWhile_cons_of_neg (by simp [hy3])
    have hm : matchTripletAt
        ('(' :: (d1 ++ ',' :: ' ' :: (y2 :: t2 ++ ',' :: ' ' :: (y3 :: t3 ++ [')']))))
        = some (d1, y2 :: t2, y3 :: t3) := by
      simp only [matchTripletAt, List.head?_cons, List.tail_cons, htd1, hdw2, htd2, hdw3, htd3]
      simp [h1]
    have hfind : findTriplet
        ('(' :: (d1 ++ ',' :: ' ' :: (y2 :: t2 ++ ',' :: ' ' :: (y3 :: t3 ++ [')']))))
        = some (d1, y2 :: t2, y3 :: t3) := by
      simp only [findTriplet]
      rw [hm]
    simp only [rgbToColor]
    rw [if_neg mk_ne_empty]
    rw [hfind]
  · intro s hs
    simp only [rgbToColor]
    by_cases he : s = ""
    · rw [if_pos he]
    · rw [if_neg he, hs]

/-- Witness for C8 (amended): the encoder output `"(255, 0, 0)"` decodes
to `"rgb(255, 0, 0)"`, and `"garbage"` (no triplet substring) falls back
to `"#000000"`. -/
theorem rgbToColor_embedded_triplet_witness :
    rgbToColor (some ⟨'(' :: (['2', '5', '5'] ++ ',' :: ' ' :: (['0'] ++ ',' :: ' '
        :: (['0'] ++ [')'])))⟩)
      = "rgb(" ++ String.mk ['2', '5', '5'] ++ ", " ++ String.mk ['0'] ++ ", "
          ++ String.mk ['0'] ++ ")"
  ∧ rgbToColor (some "(255, 0, 0)") = "rgb(255, 0, 0)"
  ∧ rgbToColor (some "garbage") = "#000000" :=
  ⟨rgbToColor_embedded_triplet.1 ['2', '5', '5'] ['0'] ['0'] (by decide) (by decide) (by decide)
      (by decide) (by decide) (by decide),
   by decide,
   rgbToColor_embedded_triplet.2.1 "garbage" (by decide)⟩

end ShippingBox
